import Mathlib

/-
  Verification of the zk-communist core against its specification.

  Shallow embedding of src/src/utils/time_helpers.py,
  src/src/services/device_manager.py, src/src/services/time_manipulator.py
  and src/src/services/scheduler.py.

  Times of day are modelled in microseconds since midnight (Python
  datetime.time stores hour/minute/second/microsecond and compares
  lexicographically, which agrees with comparing the single count).
  Randomness is modelled by passing the drawn values as explicit
  arguments.  Python exceptions are modelled with Except.
-/

set_option autoImplicit false

namespace ZKC

/-- Microseconds in one second. -/
def usPerSecond : Nat := 1000000

/-- Unfolding lemma for `usPerSecond`, for arithmetic tactics. -/
theorem usPerSecond_eq : usPerSecond = 1000000 := rfl

/-- A time of day, in microseconds since midnight. -/
abbrev TimeOfDay := Nat

/-- A clock time as produced by `_parse_time` on an HH:MM string
(`datetime.time.fromisoformat`): second and microsecond are zero. -/
structure ClockHM where
  hour : Nat
  minute : Nat
  hour_lt : hour < 24
  minute_lt : minute < 60

/-- The time-of-day of an HH:MM clock time, in microseconds. -/
def ClockHM.tod (c : ClockHM) : TimeOfDay :=
  (c.hour * 3600 + c.minute * 60) * usPerSecond

/-- A Python `datetime` as consumed by the window predicates: its
`weekday()` (Monday = 0, Sunday = 6) and its time-of-day. -/
structure PyDateTime where
  weekday : Nat
  tod : TimeOfDay
  weekday_lt : weekday < 7
  tod_lt : tod < 86400 * usPerSecond

/-- Configuration of `TimeWindowManager` after `_parse_time` of the four
HH:MM strings in `__init__`. -/
structure TimeWindowConfig where
  window_start : ClockHM
  window_end : ClockHM
  min_time : ClockHM
  max_time : ClockHM

/-- The hard (exception-raising) part of `_validate_time_ranges`:
window start before window end and min time before max time.  The
containment of the random range in the window is only a logged warning. -/
def TimeWindowConfig.valid (c : TimeWindowConfig) : Prop :=
  c.window_start.tod < c.window_end.tod ∧ c.min_time.tod < c.max_time.tod

/-- `TimeWindowManager.is_weekday`: `current_time.weekday() < 6`,
true Monday through Saturday, false on Sunday. -/
def is_weekday (t : PyDateTime) : Bool :=
  decide (t.weekday < 6)

/-- `TimeWindowManager.is_in_manipulation_window`: false off-day, else
`window_start <= current_time.time() <= window_end` (both inclusive). -/
def is_in_manipulation_window (cfg : TimeWindowConfig) (t : PyDateTime) : Bool :=
  if is_weekday t = false then false
  else decide (cfg.window_start.tod ≤ t.tod ∧ t.tod ≤ cfg.window_end.tod)

/-- The hardcoded `dt_time(8, 0)` cutoff of `is_manipulation_active`,
in microseconds; a constant, taking no configuration argument. -/
def eight_am : TimeOfDay := (8 * 3600) * usPerSecond

/-- `TimeWindowManager.is_manipulation_active`: false off-day, else
`window_start <= t < 08:00 and is_in_manipulation_window(t)`. -/
def is_manipulation_active (cfg : TimeWindowConfig) (t : PyDateTime) : Bool :=
  if is_weekday t = false then false
  else decide (cfg.window_start.tod ≤ t.tod ∧ t.tod < eight_am)
        && is_in_manipulation_window cfg t

/-- The spec's `isActionDue`, written from the spec's words: weekday,
time-of-day in `[windowStart, cutoff)` with the cutoff fixed at 08:00,
and `isInWindow` holds.  Stated separately from the source-derived
`is_manipulation_active` so the two can be compared. -/
def isActionDue_spec (cfg : TimeWindowConfig) (t : PyDateTime) : Prop :=
  is_weekday t = true ∧
  cfg.window_start.tod ≤ t.tod ∧ t.tod < eight_am ∧
  is_in_manipulation_window cfg t = true

/-- Configuration of `RandomTimeGenerator.__init__` after parsing. -/
structure RandomGenConfig where
  min_time : ClockHM
  max_time : ClockHM
  min_interval : Nat
  max_interval : Nat

/-- `RandomTimeGenerator._validate_bounds`: min time before max time,
positive intervals, min interval at most max interval. -/
def RandomGenConfig.valid (c : RandomGenConfig) : Prop :=
  c.min_time.tod < c.max_time.tod ∧
  0 < c.min_interval ∧ 0 < c.max_interval ∧
  c.min_interval ≤ c.max_interval

/-- Mutable state of `RandomTimeGenerator`: `_last_generated_time`
(a `datetime.time`, here its microsecond count). -/
structure GenState where
  last_generated_time : Option TimeOfDay

/-- Python errors raised by the embedded code. -/
inductive Exc where
  | typeErrorTimeSub
  | attributeError
  | runtimeError
  | deviceConnectionErr
  | deviceAuthErr
  | deviceTimeoutErr
  | deviceCommandErr
  | otherErr
deriving DecidableEq, Repr

/-- Python `datetime.time` implements no subtraction: evaluating
`t1 - t2` on two `time` values raises `TypeError`.  The anti-repeat
check of `generate_random_timestamp` performs exactly this operation. -/
def timeOfDaySub (_a _b : TimeOfDay) : Except Exc Int :=
  .error .typeErrorTimeSub

/-- Time-of-day of `min_datetime` in `generate_random_timestamp`:
`current_date.replace(hour=min.hour, minute=min.minute, second=0,
microsecond=0)`. -/
def min_datetime_tod (cfg : RandomGenConfig) : TimeOfDay :=
  cfg.min_time.tod

/-- Time-of-day of `max_datetime`: `current_date.replace(hour=max.hour,
minute=max.minute, second=59, microsecond=0)` - the source includes the
59th second of the max minute. -/
def max_datetime_tod (cfg : RandomGenConfig) : TimeOfDay :=
  cfg.max_time.tod + 59 * usPerSecond

/-- `total_seconds = int((max_datetime - min_datetime).total_seconds()) + 1`
(both datetimes sit on the same date and on whole seconds). -/
def total_seconds (cfg : RandomGenConfig) : Nat :=
  (max_datetime_tod cfg - min_datetime_tod cfg) / usPerSecond + 1

/-- `RandomTimeGenerator.generate_random_timestamp`, with the two random
draws passed explicitly: `random_offset` is `random.randint(0,
total_seconds - 1)` and `perturb_us` is `random.uniform(1, 5)` seconds in
microseconds.  Returns the time-of-day of the produced datetime together
with the updated state, or the Python exception the call raises.
The `some` branch of the anti-repeat check evaluates
`random_datetime.time() - self._last_generated_time`, i.e.
`timeOfDaySub`, before anything else. -/
def generate_random_timestamp (cfg : RandomGenConfig) (st : GenState)
    (random_offset : Nat) (perturb_us : Nat) :
    Except Exc (TimeOfDay × GenState) :=
  let min_dt := min_datetime_tod cfg
  let max_dt := max_datetime_tod cfg
  let rand_dt := min_dt + random_offset * usPerSecond
  match st.last_generated_time with
  | none =>
      .ok (rand_dt, { last_generated_time := some rand_dt })
  | some last => do
      let d ← timeOfDaySub rand_dt last
      let rand_dt2 :=
        if d.natAbs < usPerSecond then
          let pert := rand_dt + perturb_us
          if max_dt < pert then min_dt + random_offset * usPerSecond
          else pert
        else rand_dt
      .ok (rand_dt2, { last_generated_time := some rand_dt2 })

/-- The default configuration of `RandomTimeGenerator`:
min_time 07:55, max_time 07:59, intervals 30 and 90 seconds. -/
def defaultGenConfig : RandomGenConfig :=
  { min_time := ⟨7, 55, by decide, by decide⟩
    max_time := ⟨7, 59, by decide, by decide⟩
    min_interval := 30
    max_interval := 90 }

/-- The default configuration of `TimeWindowManager`: window
07:50 - 08:10, random range 07:55 - 07:59. -/
def defaultWindowConfig : TimeWindowConfig :=
  { window_start := ⟨7, 50, by decide, by decide⟩
    window_end := ⟨8, 10, by decide, by decide⟩
    min_time := ⟨7, 55, by decide, by decide⟩
    max_time := ⟨7, 59, by decide, by decide⟩ }

/-- C1: with the default (constructor-accepted) configuration
07:55 - 07:59, a fresh generator and the in-range draw
`random_offset = 299 < total_seconds = 300`, the call returns a
timestamp whose time-of-day is 07:59:59 - strictly beyond the
configured `max_time` 07:59 parsed as an HH:MM time-of-day.
This evaluates the code at the failing input of the claim (and of the
repository's own test `test_generate_random_timestamp_range`, which
asserts `timestamp.time() <= dt_time(7, 59)`). -/
theorem generate_random_timestamp_exceeds_configured_max :
    defaultGenConfig.valid ∧
    299 < total_seconds defaultGenConfig ∧
    generate_random_timestamp defaultGenConfig ⟨none⟩ 299 0 =
      .ok (28799 * usPerSecond, ⟨some (28799 * usPerSecond)⟩) ∧
    defaultGenConfig.max_time.tod < 28799 * usPerSecond := by
  refine ⟨⟨by decide, by decide, by decide, by decide⟩, by decide, rfl, by decide⟩

/-- C2: as soon as a previous generation exists (here 07:55:00, with the
new draw also 07:55:00, within 1 second of it), the anti-repeat check
evaluates `random_datetime.time() - self._last_generated_time`, a
subtraction of two `datetime.time` values, and the call raises
`TypeError` instead of perturbing the draw and returning normally. -/
theorem generate_random_timestamp_second_call_raises :
    generate_random_timestamp defaultGenConfig
      ⟨some (28500 * usPerSecond)⟩ 0 2500000 = .error .typeErrorTimeSub := rfl

/-- C7: on the weekly off-day (Sunday, weekday 6) both
`is_in_manipulation_window` and `is_manipulation_active` are false
whatever the time-of-day; and on a weekday a time-of-day equal to the
window start or to the window end is inside the window (both window
boundaries inclusive).  The validity hypothesis is the constructor's own
`window_start < window_end` check. -/
theorem window_offday_false_and_boundaries_inclusive
    (cfg : TimeWindowConfig) (t : PyDateTime) (hv : cfg.valid) :
    (is_weekday t = false →
      is_in_manipulation_window cfg t = false ∧
      is_manipulation_active cfg t = false) ∧
    (is_weekday t = true →
      (t.tod = cfg.window_start.tod ∨ t.tod = cfg.window_end.tod) →
      is_in_manipulation_window cfg t = true) := by
  constructor
  · intro h
    simp [is_in_manipulation_window, is_manipulation_active, h]
  · intro hw hb
    rcases hb with hb | hb
    · simp [is_in_manipulation_window, hw, hb, Nat.le_of_lt hv.1]
    · simp [is_in_manipulation_window, hw, hb, Nat.le_of_lt hv.1]

/-- Closed instance of the C7 theorem: the default window configuration,
a Sunday timestamp at 07:55 for the off-day part, evaluated concretely. -/
theorem window_offday_false_witness :
    is_weekday ⟨6, 28500 * usPerSecond, by decide, by decide⟩ = false ∧
    is_in_manipulation_window defaultWindowConfig
      ⟨6, 28500 * usPerSecond, by decide, by decide⟩ = false ∧
    is_manipulation_active defaultWindowConfig
      ⟨6, 28500 * usPerSecond, by decide, by decide⟩ = false := by
  have h := window_offday_false_and_boundaries_inclusive defaultWindowConfig
    ⟨6, 28500 * usPerSecond, by decide, by decide⟩
    ⟨by decide, by decide⟩
  exact ⟨by decide, (h.1 (by decide)).1, (h.1 (by decide)).2⟩

/-- C8: `is_manipulation_active` agrees exactly with the spec's
`isActionDue`: weekday, time-of-day in `[windowStart, cutoff)` with the
cutoff the fixed clock time 08:00 (`eight_am`, a constant independent of
the configured window and random range), and `isInWindow`. -/
theorem manipulation_active_iff_spec (cfg : TimeWindowConfig) (t : PyDateTime) :
    is_manipulation_active cfg t = true ↔ isActionDue_spec cfg t := by
  unfold is_manipulation_active isActionDue_spec
  rcases hw : is_weekday t with _ | _
  · simp [hw]
  · simp [hw]
    tauto

/-- Connection status enumeration of the device manager. -/
inductive ConnectionStatus where
  | disconnected
  | connecting
  | connected
  | authenticated
  | error
  | reconnecting
deriving DecidableEq, Repr

/-- Outcome of one attempt of the `connect` retry loop: either device
connect and authentication both succeed (the in-try `return True` path),
or the attempt fails in one of the three except branches. -/
inductive AttemptOutcome where
  | success
  | timeoutFail
  | authFail
  | connFail
deriving DecidableEq, Repr

/-- The typed error each failing except branch records in
`last_exception`: `asyncio.TimeoutError` becomes `DeviceTimeoutError`,
`DeviceAuthenticationError` is kept, any other exception becomes
`DeviceConnectionError`. -/
def AttemptOutcome.toErr : AttemptOutcome → Option Exc
  | .success => none
  | .timeoutFail => some .deviceTimeoutErr
  | .authFail => some .deviceAuthErr
  | .connFail => some .deviceConnectionErr

/-- Result of `DeviceManager.connect`: the returned value or raised
error, the final `connection_status`, and the backoff sleeps performed,
in order, in seconds (each entry is one `asyncio.sleep` call). -/
structure ConnectResult where
  result : Except Exc Bool
  status : ConnectionStatus
  sleeps : List Nat
deriving Repr

/-- The `for attempt in range(max_retry_attempts)` loop of `connect`.
On success the status becomes `AUTHENTICATED` and the call returns
`True`; on failure the typed error is recorded, the partial connection
is cleaned up, and if attempts remain a single sleep of
`retry_backoff_base ** attempt` seconds is performed.  After the loop
the status becomes `ERROR` and the recorded error (or a default
`DeviceConnectionError`) is raised. -/
def connectLoop (base maxAttempts : Nat) (outcomes : Nat → AttemptOutcome)
    (attempt : Nat) (lastErr : Option Exc) (sleeps : List Nat) :
    ConnectResult :=
  if h : attempt < maxAttempts then
    if outcomes attempt = .success then
      { result := .ok true, status := .authenticated, sleeps := sleeps }
    else
      let e := ((outcomes attempt).toErr).getD .deviceConnectionErr
      let sleeps' := if attempt < maxAttempts - 1
        then sleeps ++ [base ^ attempt] else sleeps
      connectLoop base maxAttempts outcomes (attempt + 1) (some e) sleeps'
  else
    { result := .error (lastErr.getD .deviceConnectionErr),
      status := .error, sleeps := sleeps }
termination_by maxAttempts - attempt
decreasing_by simp_wf; omega

/-- `DeviceManager.connect` with the per-attempt outcomes passed as an
oracle. -/
def connect (base maxAttempts : Nat) (outcomes : Nat → AttemptOutcome) :
    ConnectResult :=
  connectLoop base maxAttempts outcomes 0 none []

/-- One step of unfolding for the in-range case of the loop. -/
theorem connectLoop_step (base maxAttempts : Nat)
    (outcomes : Nat → AttemptOutcome) (attempt : Nat) (lastErr : Option Exc)
    (sleeps : List Nat) (h : attempt < maxAttempts) :
    connectLoop base maxAttempts outcomes attempt lastErr sleeps =
      if outcomes attempt = .success then
        { result := .ok true, status := .authenticated, sleeps := sleeps }
      else
        connectLoop base maxAttempts outcomes (attempt + 1)
          (some (((outcomes attempt).toErr).getD .deviceConnectionErr))
          (if attempt < maxAttempts - 1 then sleeps ++ [base ^ attempt]
           else sleeps) := by
  rw [connectLoop]
  simp [h]

/-- Unfolding for the exhausted case of the loop. -/
theorem connectLoop_done (base maxAttempts : Nat)
    (outcomes : Nat → AttemptOutcome) (attempt : Nat) (lastErr : Option Exc)
    (sleeps : List Nat) (h : ¬ attempt < maxAttempts) :
    connectLoop base maxAttempts outcomes attempt lastErr sleeps =
      { result := .error (lastErr.getD .deviceConnectionErr),
        status := .error, sleeps := sleeps } := by
  rw [connectLoop]
  simp [h]

/-- C4: with `max_retry_attempts = 3`, the first two attempts failing
(in any failure mode) and the third succeeding, `connect` performs
exactly the two backoff sleeps `base ^ 0` and `base ^ 1` seconds (in
that order), returns `True` and ends `AUTHENTICATED`. -/
theorem connect_two_failures_then_success (base : Nat)
    (outcomes : Nat → AttemptOutcome)
    (h0 : outcomes 0 ≠ .success) (h1 : outcomes 1 ≠ .success)
    (h2 : outcomes 2 = .success) :
    connect base 3 outcomes =
      { result := .ok true, status := .authenticated,
        sleeps := [base ^ 0, base ^ 1] } := by
  unfold connect
  rw [connectLoop_step base 3 outcomes 0 none [] (by omega)]
  simp only [h0, if_neg]
  rw [connectLoop_step base 3 outcomes 1 _ _ (by omega)]
  simp only [h1, if_neg]
  rw [connectLoop_step base 3 outcomes 2 _ _ (by omega)]
  simp [h0, h1, h2]

/-- Concrete instance of the C4 theorem: backoff base 2, the first two
attempts time out, the third succeeds; the sleeps are 1 and 2 seconds. -/
theorem connect_two_failures_then_success_witness :
    connect 2 3 (fun n => if n < 2 then .timeoutFail else .success) =
      { result := .ok true, status := .authenticated, sleeps := [1, 2] } := by
  have h := connect_two_failures_then_success 2
    (fun n => if n < 2 then .timeoutFail else .success)
    (by decide) (by decide) (by decide)
  simpa using h

/-- Invariant proof for the all-attempts-fail case of the loop. -/
theorem connectLoop_all_fail (base maxAttempts : Nat)
    (outcomes : Nat → AttemptOutcome) :
    ∀ k attempt lastErr sleeps, maxAttempts - attempt = k →
      attempt < maxAttempts →
      (∀ i, attempt ≤ i → i < maxAttempts → outcomes i ≠ .success) →
      (connectLoop base maxAttempts outcomes attempt lastErr sleeps).status
          = .error ∧
      (connectLoop base maxAttempts outcomes attempt lastErr sleeps).result
          = .error (((outcomes (maxAttempts - 1)).toErr).getD
              .deviceConnectionErr) := by
  intro k
  induction k with
  | zero =>
    intro attempt lastErr sleeps hk hlt
    omega
  | succ k ih =>
    intro attempt lastErr sleeps hk hlt hfail
    rw [connectLoop_step base maxAttempts outcomes attempt lastErr sleeps hlt]
    rw [if_neg (hfail attempt le_rfl hlt)]
    by_cases hnext : attempt + 1 < maxAttempts
    · exact ih (attempt + 1) _ _ (by omega) hnext
        (fun i hi hi2 => hfail i (by omega) hi2)
    · have hlast : attempt = maxAttempts - 1 := by omega
      rw [connectLoop_done base maxAttempts outcomes (attempt + 1) _ _ hnext]
      subst hlast
      exact ⟨rfl, rfl⟩

/-- C5: if every one of the `max_retry_attempts` attempts fails,
`connect` ends with status `ERROR` and raises exactly the typed error
recorded from the final attempt's failure mode. -/
theorem connect_exhausted_typed_error (base maxAttempts : Nat)
    (outcomes : Nat → AttemptOutcome) (hmax : 1 ≤ maxAttempts)
    (hfail : ∀ i, i < maxAttempts → outcomes i ≠ .success) :
    (connect base maxAttempts outcomes).status = .error ∧
    ∃ e, (outcomes (maxAttempts - 1)).toErr = some e ∧
      (connect base maxAttempts outcomes).result = .error e := by
  have h := connectLoop_all_fail base maxAttempts outcomes maxAttempts 0 none []
    (by omega) (by omega) (fun i _ hi2 => hfail i hi2)
  refine ⟨h.1, ?_⟩
  unfold connect
  have hlastfail := hfail (maxAttempts - 1) (by omega)
  rcases ho : outcomes (maxAttempts - 1) with _ | _ | _ | _
  · exact absurd ho hlastfail
  · exact ⟨.deviceTimeoutErr, rfl, by rw [h.2, ho]; rfl⟩
  · exact ⟨.deviceAuthErr, rfl, by rw [h.2, ho]; rfl⟩
  · exact ⟨.deviceConnectionErr, rfl, by rw [h.2, ho]; rfl⟩

/-- Concrete instance of the C5 theorem: two attempts, both timing out;
the raised error is the timeout error of the final attempt and the
status is `ERROR`. -/
theorem connect_exhausted_typed_error_witness :
    (connect 3 2 (fun _ => .timeoutFail)).status = .error ∧
    ∃ e, AttemptOutcome.toErr .timeoutFail = some e ∧
      (connect 3 2 (fun _ => .timeoutFail)).result = .error e := by
  have h := connect_exhausted_typed_error 3 2 (fun _ => .timeoutFail)
    (by omega) (fun i _ => by simp)
  exact ⟨h.1, h.2⟩

/-- A device I/O operation issued by `_execute_device_command` through
the executor: a `get_device_time` read or a `set_time` write. -/
inductive IOAction where
  | getTime
  | setTime (t : String)
deriving DecidableEq, Repr

/-- `DeviceManager._execute_device_command`, returning the raised error
or result together with the device I/O it performs.  `target_time` is
`kwargs.get("target_time")`; Python truthiness makes both a missing and
an empty argument fall through to the bad-command raise.  An unknown
command raises `DeviceCommandError` without I/O. -/
def execute_device_command (hasDevice : Bool) (command : String)
    (target_time : Option String)
    (devExec : IOAction → Except Exc String) :
    Except Exc String × List IOAction :=
  if hasDevice = false then (.error .deviceConnectionErr, [])
  else if command = "get_time" then (devExec .getTime, [.getTime])
  else if command = "set_time" then
    match target_time with
    | some t =>
        if t.isEmpty then (.error .deviceCommandErr, [])
        else (devExec (.setTime t), [.setTime t])
    | none => (.error .deviceCommandErr, [])
  else (.error .deviceCommandErr, [])

/-- `DeviceManager.execute_command`: fails fast with
`DeviceConnectionError` when no device handle exists or the status is
not `AUTHENTICATED`, before any device I/O.  Otherwise it runs
`_execute_device_command` under a 10 second `asyncio.wait_for`
(`timedOut` says whether that bound fires, which is only possible when
the inner call actually performs device I/O) and maps a timeout to
`DeviceTimeoutError` and any other exception to `DeviceCommandError`. -/
def execute_command (status : ConnectionStatus) (hasDevice : Bool)
    (command : String) (target_time : Option String)
    (devExec : IOAction → Except Exc String) (timedOut : Bool) :
    Except Exc String × List IOAction :=
  if hasDevice = false ∨ status ≠ .authenticated then
    (.error .deviceConnectionErr, [])
  else
    let inner := execute_device_command hasDevice command target_time devExec
    if timedOut = true ∧ inner.2 ≠ [] then (.error .deviceTimeoutErr, inner.2)
    else
      match inner.1 with
      | .ok r => (.ok r, inner.2)
      | .error _ => (.error .deviceCommandErr, inner.2)

/-- C6: whenever the status is not `AUTHENTICATED`, `execute_command`
raises the not-connected error with an empty device I/O trace; and when
authenticated with a device handle, `set_time` without a `target_time`
argument raises the bad-command error, as does any command other than
`get_time` and `set_time`, again with no I/O. -/
theorem execute_command_requires_auth_and_known_command
    (status : ConnectionStatus) (hasDevice : Bool) (command : String)
    (target_time : Option String) (devExec : IOAction → Except Exc String)
    (timedOut : Bool) :
    (status ≠ .authenticated →
      execute_command status hasDevice command target_time devExec timedOut =
        (.error .deviceConnectionErr, [])) ∧
    (status = .authenticated → hasDevice = true →
      (execute_command status hasDevice "set_time" none devExec timedOut =
        (.error .deviceCommandErr, []) ∧
      (command ≠ "get_time" → command ≠ "set_time" →
        execute_command status hasDevice command target_time devExec timedOut =
          (.error .deviceCommandErr, [])))) := by
  constructor
  · intro h
    unfold execute_command
    rw [if_pos (Or.inr h)]
  · intro hs hd
    subst hs
    subst hd
    refine ⟨?_, ?_⟩
    · unfold execute_command execute_device_command
      simp
    · intro h1 h2
      unfold execute_command execute_device_command
      simp [h1, h2]

/-- Concrete instance of the C6 theorem: a never-connected manager
(status `DISCONNECTED`, no device handle) gets the not-connected error
with no I/O; an authenticated manager gets the bad-command error for
`set_time` without a target and for the unknown command `reboot`. -/
theorem execute_command_guard_witness :
    execute_command .disconnected false "get_time" none
        (fun _ => .ok "t") false = (.error .deviceConnectionErr, []) ∧
    execute_command .authenticated true "set_time" none
        (fun _ => .ok "t") false = (.error .deviceCommandErr, []) ∧
    execute_command .authenticated true "reboot" none
        (fun _ => .ok "t") false = (.error .deviceCommandErr, []) := by
  have h1 := execute_command_requires_auth_and_known_command .disconnected
    false "get_time" none (fun _ => .ok "t") false
  have h2 := execute_command_requires_auth_and_known_command .authenticated
    true "reboot" none (fun _ => .ok "t") false
  exact ⟨h1.1 (by decide), (h2.2 rfl rfl).1,
    (h2.2 rfl rfl).2 (by decide) (by decide)⟩

/-- A wall-clock instant for the sleep computations of the manipulation
loop: a day index and a time-of-day. -/
structure PyInstant where
  day : Nat
  tod : TimeOfDay
  tod_lt : tod < 86400 * usPerSecond

/-- `TimeManipulator._sleep_until_next_window`: computes tomorrow's
window-start instant, and if the duration until it is positive performs
ONE `asyncio.sleep` of the whole duration.  Each list entry is one
`asyncio.sleep` call, in microseconds. -/
def sleep_until_next_window_chunks (ws : ClockHM) (t : PyInstant) :
    List Nat :=
  if 0 < (t.day + 1) * (86400 * usPerSecond) + ws.tod
        - (t.day * (86400 * usPerSecond) + t.tod)
  then [(t.day + 1) * (86400 * usPerSecond) + ws.tod
        - (t.day * (86400 * usPerSecond) + t.tod)]
  else []

/-- `TimeManipulator._sleep_until_window_end`: the duration until
today's window end (possibly negative, hence the signed computation),
slept in ONE `asyncio.sleep` call when positive. -/
def sleep_until_window_end_chunks (we : ClockHM) (t : PyInstant) :
    List Nat :=
  if 0 < (we.tod : Int) - (t.tod : Int)
  then [((we.tod : Int) - (t.tod : Int)).toNat]
  else []

/-- The property the specification asserts of every core sleep: every
individual sleep call lasts at most one second (microsecond units). -/
def chunksAtMostOneSec (l : List Nat) : Prop :=
  ∀ c ∈ l, c ≤ usPerSecond

/-- `Scheduler.sleep_with_monitoring`: sleeps in chunks of
`min(1.0, remaining)` seconds, checking the shutdown event between
chunks; the chunk list it performs when the shutdown event is never set
(microsecond units). -/
def sleep_with_monitoring_chunks (remaining_us : Nat) : List Nat :=
  if remaining_us = 0 then []
  else if remaining_us ≤ usPerSecond then [remaining_us]
  else usPerSecond :: sleep_with_monitoring_chunks (remaining_us - usPerSecond)
termination_by remaining_us
decreasing_by simp_wf; unfold usPerSecond; omega

/-- Every chunk of `sleep_with_monitoring` is at most one second. -/
theorem sleep_with_monitoring_chunks_le (n : Nat) :
    chunksAtMostOneSec (sleep_with_monitoring_chunks n) := by
  induction n using Nat.strong_induction_on with
  | _ n ih =>
    rw [sleep_with_monitoring_chunks]
    by_cases h0 : n = 0
    · simp [h0, chunksAtMostOneSec]
    · rw [if_neg h0]
      by_cases h1 : n ≤ usPerSecond
      · rw [if_pos h1]
        intro c hc
        simp at hc
        omega
      · rw [if_neg h1]
        intro c hc
        rcases List.mem_cons.mp hc with rfl | hc
        · exact le_rfl
        · exact ih (n - usPerSecond) (by unfold usPerSecond at *; omega) c hc

/-- Every backoff sleep the connect loop accumulates is a single call
of `base ^ i` seconds for some in-range attempt index `i`. -/
theorem connectLoop_sleeps_pow (base maxAttempts : Nat)
    (outcomes : Nat → AttemptOutcome) :
    ∀ k attempt lastErr sleeps, maxAttempts - attempt = k →
      (∀ s ∈ sleeps, ∃ i, i < maxAttempts ∧ s = base ^ i) →
      ∀ s ∈ (connectLoop base maxAttempts outcomes attempt
                lastErr sleeps).sleeps,
        ∃ i, i < maxAttempts ∧ s = base ^ i := by
  intro k
  induction k with
  | zero =>
    intro attempt lastErr sleeps hk hinv
    rw [connectLoop_done base maxAttempts outcomes attempt lastErr sleeps
      (by omega)]
    exact hinv
  | succ k ih =>
    intro attempt lastErr sleeps hk hinv
    by_cases hlt : attempt < maxAttempts
    · rw [connectLoop_step base maxAttempts outcomes attempt lastErr
        sleeps hlt]
      by_cases hs : outcomes attempt = .success
      · rw [if_pos hs]
        exact hinv
      · rw [if_neg hs]
        apply ih (attempt + 1) _ _ (by omega)
        by_cases hrem : attempt < maxAttempts - 1
        · rw [if_pos hrem]
          intro s hsmem
          rcases List.mem_append.mp hsmem with hsmem | hsmem
          · exact hinv s hsmem
          · simp at hsmem
            exact ⟨attempt, hlt, hsmem⟩
        · rw [if_neg hrem]
          exact hinv
    · rw [connectLoop_done base maxAttempts outcomes attempt lastErr
        sleeps hlt]
      exact hinv

/-- Concrete evaluation of the connect loop used by witnesses: base 2,
three attempts, first two timing out, third succeeding. -/
theorem connect_eval_two_timeouts :
    connect 2 3 (fun n => if n < 2 then .timeoutFail else .success) =
      { result := .ok true, status := .authenticated, sleeps := [1, 2] } := by
  unfold connect
  rw [connectLoop_step 2 3 _ 0 none [] (by omega)]
  rw [if_neg (by decide)]
  rw [connectLoop_step 2 3 _ 1 _ _ (by omega)]
  rw [if_neg (by decide)]
  rw [connectLoop_step 2 3 _ 2 _ _ (by omega)]
  rw [if_pos (by decide)]
  norm_num

/-- C9 counterexample: at a Monday 09:00 instant, outside the default
07:50 - 08:10 window, `_sleep_until_next_window` performs a single
`asyncio.sleep` of 82200 seconds (until 07:50 the next day), so the
claim that every core sleep is chunked into calls of at most one second
is false. -/
theorem window_wait_single_long_sleep_counterexample :
    ¬ chunksAtMostOneSec (sleep_until_next_window_chunks
        defaultWindowConfig.window_start
        ⟨0, 32400 * usPerSecond, by decide⟩) := by
  intro h
  exact absurd (h (82200 * usPerSecond) (by decide)) (by decide)

/-- C9 amended: the window-boundary waits each issue at most ONE
`asyncio.sleep` call of the whole computed duration (the next-window
wait always a single call of a up-to-a-day duration), and each connect
backoff is a single call of `base ^ i` seconds; chunked sleeping of at
most one second per call exists only in `Scheduler.sleep_with_monitoring`,
which none of these paths invoke. -/
theorem core_sleeps_single_call_structure :
    (∀ (ws : ClockHM) (t : PyInstant),
      sleep_until_next_window_chunks ws t =
        [86400 * usPerSecond + ws.tod - t.tod]) ∧
    (∀ (we : ClockHM) (t : PyInstant),
      (sleep_until_window_end_chunks we t).length ≤ 1 ∧
      ∀ c ∈ sleep_until_window_end_chunks we t, c = we.tod - t.tod) ∧
    (∀ (base maxAttempts : Nat) (outcomes : Nat → AttemptOutcome) (s : Nat),
      s ∈ (connect base maxAttempts outcomes).sleeps →
      ∃ i, i < maxAttempts ∧ s = base ^ i) ∧
    (∀ n, chunksAtMostOneSec (sleep_with_monitoring_chunks n)) := by
  refine ⟨?_, ?_, ?_, sleep_with_monitoring_chunks_le⟩
  · intro ws t
    have key : ∀ (d w tt : Nat), tt < 86400 * 1000000 →
        (if 0 < (d + 1) * (86400 * 1000000) + w
              - (d * (86400 * 1000000) + tt)
         then [(d + 1) * (86400 * 1000000) + w
              - (d * (86400 * 1000000) + tt)]
         else []) = [86400 * 1000000 + w - tt] := by
      intro d w tt htt
      rw [if_pos (by omega)]
      simp only [List.cons.injEq, and_true]
      omega
    have ht := t.tod_lt
    unfold sleep_until_next_window_chunks
    simp only [usPerSecond_eq] at ht ⊢
    exact key t.day ws.tod t.tod ht
  · intro we t
    unfold sleep_until_window_end_chunks
    by_cases h : (0 : Int) < (we.tod : Int) - (t.tod : Int)
    · rw [if_pos h]
      refine ⟨by simp, ?_⟩
      intro c hc
      simp at hc
      omega
    · rw [if_neg h]
      exact ⟨by simp, by intro c hc; simp at hc⟩
  · intro base maxAttempts outcomes s hs
    exact connectLoop_sleeps_pow base maxAttempts outcomes maxAttempts 0
      none [] (by omega) (by intro s hs2; simp at hs2) s hs

/-- Concrete instance of the C9 amended theorem: the 2-second backoff of
the concrete connect run is a single sleep of `2 ^ 1` seconds, and the
next-window wait at Monday 09:00 is the single 82200-second sleep. -/
theorem core_sleeps_single_call_structure_witness :
    (∃ i, i < 3 ∧ 2 = 2 ^ i) ∧
    sleep_until_next_window_chunks defaultWindowConfig.window_start
        ⟨0, 32400 * usPerSecond, by decide⟩ = [82200 * usPerSecond] := by
  have h := core_sleeps_single_call_structure
  constructor
  · exact h.2.2.1 2 3 (fun n => if n < 2 then .timeoutFail else .success) 2
      (by rw [connect_eval_two_timeouts]; simp)
  · have h1 := h.1 defaultWindowConfig.window_start
      ⟨0, 32400 * usPerSecond, by decide⟩
    rw [h1]
    norm_num [defaultWindowConfig, ClockHM.tod, usPerSecond]

/-- Scheduler operational states. -/
inductive SchedulerState where
  | stopped
  | starting
  | running
  | pausing
  | paused
  | stopping
  | error
deriving DecidableEq, Repr

/-- The attribute names the services `DeviceManager` class defines: the
instance attributes assigned in `__init__` and the methods of the class
body.  `is_connected` is not among them, on any code path. -/
def deviceManagerAttrs : List String :=
  ["logger", "max_retry_attempts", "retry_backoff_base",
   "connection_timeout", "health_check_interval", "device",
   "connection_status", "ip_address", "port", "credentials",
   "_connection_lock", "_health_check_task", "_reconnect_task",
   "connect", "disconnect", "test_connection", "execute_command",
   "get_connection_status", "_create_connection", "_authenticate_device",
   "_get_device_info", "_execute_device_command", "_cleanup_connection",
   "_start_health_monitoring", "_stop_health_monitoring",
   "_health_monitoring_loop", "_attempt_reconnection", "device_session"]

/-- Python attribute read as a boolean: returns the attribute's value if
the class defines the name, otherwise raises `AttributeError`. -/
def getattrBool (attrs : List String) (name : String) (value : Bool) :
    Except Exc Bool :=
  if name ∈ attrs then .ok value else .error .attributeError

/-- Outcomes of the awaited operations inside `Scheduler.start`:
the `device_manager.is_connected` attribute read, the
`device_manager.connect` call, `time_manipulator.start_manipulation_cycle`,
and the body of a registered `on_start` callback. -/
structure StartEnv where
  is_connected_attr : Except Exc Bool
  connect_result : Except Exc Bool
  tm_start : Except Exc Unit
  on_start_cb : Except Exc Unit

/-- Outcome of one `asyncio.wait_for(task, timeout=5.0)` during
`Scheduler.stop`: stopped in time, timed out (logged, non-fatal),
cancelled (passed over), or raised some other exception. -/
inductive TaskStop where
  | stoppedOk
  | timedOut
  | wasCancelled
  | failed (e : Exc)
deriving DecidableEq, Repr

/-- The `try`/`except` around each task wait in `stop`:
`asyncio.TimeoutError` and `asyncio.CancelledError` are absorbed, any
other exception propagates. -/
def awaitTaskStop : TaskStop → Except Exc Unit
  | .stoppedOk => .ok ()
  | .timedOut => .ok ()
  | .wasCancelled => .ok ()
  | .failed e => .error e

/-- Outcomes of the awaited operations inside `Scheduler.stop`. -/
structure StopEnv where
  tm_stop : Except Exc Unit
  tasks : List TaskStop
  is_connected_attr : Except Exc Bool
  dm_disconnect : Except Exc Unit
  on_stop_cb : Except Exc Unit

/-- `Scheduler._trigger_callback`: a callback exception is logged and
never propagated. -/
def trigger_callback (inner : Except Exc Unit) : Except Exc Unit :=
  match inner with
  | .ok _ => .ok ()
  | .error _ => .ok ()

/-- The `try` body of `Scheduler.start`: read
`device_manager.is_connected`; when false, await `connect` and raise
`RuntimeError` if it returns falsy; then spawn the loop tasks (which
cannot raise here) and await `start_manipulation_cycle`. -/
def startBody (env : StartEnv) : Except Exc Unit := do
  let conn ← env.is_connected_attr
  if conn = false then
    let ok ← env.connect_result
    if ok = false then throw .runtimeError
  env.tm_start

/-- The full `try` of `start` including the `on_start` callback trigger
that runs after the state is set to `RUNNING`. -/
def startOutcome (env : StartEnv) : Except Exc Unit := do
  startBody env
  trigger_callback env.on_start_cb

/-- `Scheduler.start`: rejects (returns `False`, state unchanged) unless
`STOPPED`; otherwise runs the startup body under the catch-all handler,
ending `RUNNING` with `True` on success and `ERROR` with `False` on any
exception.  The returned pair is (return value, final `_state`). -/
def schedulerStart (env : StartEnv) (st : SchedulerState) :
    Except Exc (Bool × SchedulerState) :=
  if st = .stopped then
    match startOutcome env with
    | .ok _ => .ok (true, .running)
    | .error _ => .ok (false, .error)
  else .ok (false, st)

/-- The `try` body of `Scheduler.stop`: await
`stop_manipulation_cycle`, cancel and await each background task
(timeouts and cancellations absorbed), read
`device_manager.is_connected` and disconnect when connected. -/
def stopBody (env : StopEnv) : Except Exc Unit := do
  env.tm_stop
  env.tasks.forM awaitTaskStop
  let conn ← env.is_connected_attr
  if conn = true then env.dm_disconnect

/-- The full `try` of `stop` including the `on_stop` callback trigger. -/
def stopOutcome (env : StopEnv) : Except Exc Unit := do
  stopBody env
  trigger_callback env.on_stop_cb

/-- `Scheduler.stop`: returns `True` immediately when already
`STOPPED`; otherwise runs the shutdown body under the catch-all handler,
ending `STOPPED` with `True` on success and `ERROR` with `False` on any
exception. -/
def schedulerStop (env : StopEnv) (st : SchedulerState) :
    Except Exc (Bool × SchedulerState) :=
  if st = .stopped then .ok (true, .stopped)
  else
    match stopOutcome env with
    | .ok _ => .ok (true, .stopped)
    | .error _ => .ok (false, .error)

/-- C3: for a Scheduler built on the services `DeviceManager` class (the
one the scheduler module imports), whose attribute table
`deviceManagerAttrs` lacks `is_connected`, `start()` in the `STOPPED`
state always returns `False` and records state `ERROR`: the
`is_connected` read raises `AttributeError` inside the catch-all
startup handler, whatever the other step outcomes. -/
theorem scheduler_start_missing_is_connected (env : StartEnv) (v : Bool)
    (henv : env.is_connected_attr =
      getattrBool deviceManagerAttrs "is_connected" v) :
    schedulerStart env .stopped = .ok (false, .error) := by
  have h1 : env.is_connected_attr = .error .attributeError := by
    rw [henv]
    unfold getattrBool
    rw [if_neg (by decide)]
  have h2 : startOutcome env = .error .attributeError := by
    unfold startOutcome startBody
    rw [h1]
    rfl
  unfold schedulerStart
  rw [if_pos rfl, h2]

/-- Closed instance of the C3 theorem: a concrete environment whose
`is_connected` read goes through the services class attribute table. -/
theorem scheduler_start_missing_is_connected_witness :
    schedulerStart
      { is_connected_attr := getattrBool deviceManagerAttrs "is_connected" true,
        connect_result := .ok true, tm_start := .ok (),
        on_start_cb := .ok () } .stopped = .ok (false, .error) :=
  scheduler_start_missing_is_connected _ true rfl

/-- C10: `Scheduler.start` and `Scheduler.stop` never propagate an
exception to the caller (both always evaluate to an `.ok` pair, for
every environment and starting state), and whenever the startup or
shutdown body raises, the call returns `False` with recorded state
`ERROR`. -/
theorem scheduler_start_stop_no_throw (envS : StartEnv) (envT : StopEnv)
    (s1 s2 : SchedulerState) :
    (∃ r, schedulerStart envS s1 = .ok r) ∧
    (∃ r, schedulerStop envT s2 = .ok r) ∧
    (∀ e, startBody envS = .error e →
      schedulerStart envS .stopped = .ok (false, .error)) ∧
    (∀ e, stopBody envT = .error e → s2 ≠ .stopped →
      schedulerStop envT s2 = .ok (false, .error)) := by
  refine ⟨?_, ?_, ?_, ?_⟩
  · unfold schedulerStart
    by_cases h : s1 = .stopped
    · rw [if_pos h]
      cases startOutcome envS with
      | ok _ => exact ⟨(true, .running), rfl⟩
      | error _ => exact ⟨(false, .error), rfl⟩
    · rw [if_neg h]
      exact ⟨(false, s1), rfl⟩
  · unfold schedulerStop
    by_cases h : s2 = .stopped
    · rw [if_pos h]
      exact ⟨(true, .stopped), rfl⟩
    · rw [if_neg h]
      cases stopOutcome envT with
      | ok _ => exact ⟨(true, .stopped), rfl⟩
      | error _ => exact ⟨(false, .error), rfl⟩
  · intro e he
    have h2 : startOutcome envS = .error e := by
      unfold startOutcome
      rw [he]
      rfl
    unfold schedulerStart
    rw [if_pos rfl, h2]
  · intro e he hne
    have h2 : stopOutcome envT = .error e := by
      unfold stopOutcome
      rw [he]
      rfl
    unfold schedulerStop
    rw [if_neg hne, h2]

/-- Closed instance of the C10 theorem: a startup whose `is_connected`
read raises and a shutdown whose `stop_manipulation_cycle` raises both
yield `False` with state `ERROR`, and a stop environment always
evaluates to an `.ok` pair. -/
theorem scheduler_start_stop_no_throw_witness :
    schedulerStart
      { is_connected_attr := .error .attributeError,
        connect_result := .ok true, tm_start := .ok (),
        on_start_cb := .ok () } .stopped = .ok (false, .error) ∧
    schedulerStop
      { tm_stop := .error .otherErr, tasks := [.timedOut],
        is_connected_attr := .ok false, dm_disconnect := .ok (),
        on_stop_cb := .ok () } .running = .ok (false, .error) := by
  have h := scheduler_start_stop_no_throw
    { is_connected_attr := .error .attributeError,
      connect_result := .ok true, tm_start := .ok (),
      on_start_cb := .ok () }
    { tm_stop := .error .otherErr, tasks := [.timedOut],
      is_connected_attr := .ok false, dm_disconnect := .ok (),
      on_stop_cb := .ok () } .stopped .running
  exact ⟨h.2.2.1 .attributeError rfl, h.2.2.2 .otherErr rfl (by decide)⟩

end ZKC
